import Mathlib

/-!
Verification development for the edi-mapper repository.

The repository converts tabular warehouse-receipt data to EDI 944 text by
prompting an external chat model.  This file gives a shallow embedding of the
executable logic in src/app/converter.py and src/app/config.py, of the EDI 944
reference examples embedded verbatim in the prompt templates, and of the
EDI944Encoder component that the specification describes (the source contains
no encoder: the conversion itself is delegated to the external model).
-/

namespace EdiMapper

set_option maxRecDepth 8000

/-! ## Python string stripping -/

/-- Whitespace characters removed by Python's parameterless str.strip in the
ASCII range. -/
def pyIsWhitespace (c : Char) : Bool :=
  c = ' ' || c = '\t' || c = '\n' || c = '\r' || c = '\x0b' || c = '\x0c'

/-- Python str.strip with no argument: remove leading and trailing whitespace. -/
def pyStrip (s : String) : String :=
  ⟨((s.data.dropWhile pyIsWhitespace).reverse.dropWhile pyIsWhitespace).reverse⟩

/-! ## converter.py -/

/-- Value returned by self.chain.invoke as inspected by
convert_tabular_to_edi944 (converter.py lines 148-154): either a Python dict,
which may or may not carry a "text" key, or a non-dict value.  The reprStr
field records what str(result) yields for the fallback branch. -/
inductive ChainResult where
  | dict (text : Option String) (reprStr : String)
  | nonDict (reprStr : String)
deriving DecidableEq

/-- String the converter extracts from the chain result: result["text"] when
the result is a dict with a "text" key, str(result) otherwise. -/
def resultPayload : ChainResult → String
  | .dict (some t) _ => t
  | .dict none r => r
  | .nonDict r => r

/-- Temperature the ChatOpenAI model is constructed with in
EDI944Converter.__init__ (converter.py line 26). -/
def chatTemperature : ℚ := 1 / 10

/-- The two prompt templates held by EDI944Converter. -/
inductive Template where
  | standard
  | synapse
deriving DecidableEq

/-- Template selection in EDI944Converter.__init__ (converter.py line 124):
self.standard_template if mode == "standard" else self.synapse_template. -/
def selectTemplate (mode : String) : Template :=
  if mode = "standard" then .standard else .synapse

/-- EDI944Converter.convert_tabular_to_edi944 (converter.py lines 133-162).
The chain invocation is the external model call; `Except.error` models a raised
exception.  On success the converter returns the stripped payload; a chain
exception is re-raised with the prefix "Error during conversion: ". -/
def convert_tabular_to_edi944 (chain : String → Except String ChainResult)
    (tabular_data : String) : Except String String :=
  match chain tabular_data with
  | .ok result => .ok (pyStrip (resultPayload result))
  | .error e => .error ("Error during conversion: " ++ e)

/-- Successive responses of the external chat model: call index and prompt
input to response.  The model is remote and sampled with chatTemperature = 0.1,
so two calls on the same input need not return the same response. -/
def ModelOracle : Type := Nat → String → Except String ChainResult

/-- Outcome of the k-th call of convert_tabular_to_edi944 on the same input. -/
def convertCall (oracle : ModelOracle) (k : Nat) (input : String) :
    Except String String :=
  convert_tabular_to_edi944 (oracle k) input

/-- Oracle whose two calls on the same input return different completions, as a
sampled model with nonzero temperature may. -/
def variedOracle : ModelOracle :=
  fun k _ => .ok (.dict (some (if k = 0 then "ISA*A~" else "ISA*B~")) "")

/-- Chain standing for a model run that returns an EDI-looking completion. -/
def completingChain : String → Except String ChainResult :=
  fun _ => .ok (.dict (some "ISA*00~ST*944*0001~SE*2*0001~") "")

/-- Boolean success test on a conversion outcome. -/
def isOkResult {α : Type} : Except String α → Bool
  | .ok _ => true
  | .error _ => false

/-! ## config.py -/

/-- Streamlit session-state entries touched by config.py.  A field holds none
when its key is absent from st.session_state. -/
structure SessionState where
  api_key : Option String
  temp_file_path : Option (Option String)
  conversion_history : Option (List String)
  conversion_mode : Option String
deriving DecidableEq

/-- init_session_state (config.py lines 17-30): each key is given its default
value when absent. -/
def init_session_state (s : SessionState) : SessionState :=
  let s1 := if s.api_key = none then { s with api_key := some "" } else s
  let s2 := if s1.temp_file_path = none then
    { s1 with temp_file_path := some none } else s1
  let s3 := if s2.conversion_history = none then
    { s2 with conversion_history := some [] } else s2
  if s3.conversion_mode = none then
    { s3 with conversion_mode := some "standard" } else s3

/-- save_api_key (config.py lines 32-35). -/
def save_api_key (s : SessionState) (api_key : String) : SessionState :=
  { s with api_key := some api_key }

/-- get_api_key (config.py lines 37-50): returns the produced key together with
the updated session state; none models the KeyError Python raises when the
api_key key is absent.  envKey is os.environ.get("OPENAI_API_KEY", ""). -/
def get_api_key (s : SessionState) (envKey : String) :
    Option (String × SessionState) :=
  match s.api_key with
  | none => none
  | some k =>
    if k ≠ "" then some (k, s)
    else if envKey ≠ "" then some (envKey, save_api_key s envKey)
    else some ("", s)

/-- set_conversion_mode (config.py lines 52-58): the mode is stored only when
it is "standard" or "synapse"; otherwise only a warning is logged. -/
def set_conversion_mode (s : SessionState) (mode : String) : SessionState :=
  if mode = "standard" ∨ mode = "synapse" then
    { s with conversion_mode := some mode } else s

/-- get_conversion_mode (config.py lines 60-62). -/
def get_conversion_mode (s : SessionState) : String :=
  s.conversion_mode.getD "standard"

/-- Invariant: the stored conversion mode, when present, is one of the two
recognized values. -/
def ModeInvariant (s : SessionState) : Prop :=
  s.conversion_mode = none ∨ s.conversion_mode = some "standard" ∨
    s.conversion_mode = some "synapse"

lemma init_session_state_conversion_mode (s : SessionState) :
    (init_session_state s).conversion_mode =
      if s.conversion_mode = none then some "standard"
      else s.conversion_mode := by
  rcases s with ⟨a, t, h, m⟩
  cases a <;> cases t <;> cases h <;> cases m <;> rfl

/-! ## Claim theorems over converter.py and config.py -/

/-- C1: convert_tabular_to_edi944 performs no format transformation itself:
when the chain result is a dict with a "text" key the return value is that text
with surrounding whitespace stripped, and for any other chain result it is
str(result) stripped, so the EDI output is whatever string the model returns. -/
theorem convert_returns_stripped_model_response
    (chain : String → Except String ChainResult) (tabular_data : String) :
    (∀ t r, chain tabular_data = .ok (.dict (some t) r) →
      convert_tabular_to_edi944 chain tabular_data = .ok (pyStrip t)) ∧
    (∀ r, chain tabular_data = .ok (.dict none r) →
      convert_tabular_to_edi944 chain tabular_data = .ok (pyStrip r)) ∧
    (∀ r, chain tabular_data = .ok (.nonDict r) →
      convert_tabular_to_edi944 chain tabular_data = .ok (pyStrip r)) := by
  refine ⟨fun t r h => ?_, fun r h => ?_, fun r h => ?_⟩ <;>
    simp [convert_tabular_to_edi944, h, resultPayload]

/-- Witness for C1 at a concrete chain and input. -/
theorem convert_returns_stripped_model_response_witness :
    convert_tabular_to_edi944
        (fun _ => .ok (.dict (some "  ISA*00~  ") "ignored")) "HDR|944" =
      .ok (pyStrip "  ISA*00~  ") :=
  (convert_returns_stripped_model_response
    (fun _ => .ok (.dict (some "  ISA*00~  ") "ignored")) "HDR|944").1
    "  ISA*00~  " "ignored" rfl

/-- C2 counterexample: two calls of the conversion on the same input with a
model whose sampled completions differ yield different outputs, so the code
does not make the conversion deterministic. -/
theorem convert_not_deterministic_counterexample :
    convertCall variedOracle 0 "HDR|CAN|944" ≠
      convertCall variedOracle 1 "HDR|CAN|944" := by
  intro h
  have h1 : convertCall variedOracle 0 "HDR|CAN|944" =
      Except.ok "ISA*A~" := rfl
  have h2 : convertCall variedOracle 1 "HDR|CAN|944" =
      Except.ok "ISA*B~" := rfl
  rw [h1, h2] at h
  exact absurd (Except.ok.inj h) (by decide)

/-- C2 (amended): the conversion is deterministic only relative to the external
model.  The ChatOpenAI model is sampled at temperature 0.1, which is nonzero,
and two calls yield byte-identical output whenever the model returns the same
response for both calls; the code itself does not force equal responses. -/
theorem convert_deterministic_relative_to_model :
    chatTemperature ≠ 0 ∧
    ∀ (oracle : ModelOracle) (input : String),
      oracle 0 input = oracle 1 input →
      convertCall oracle 0 input = convertCall oracle 1 input := by
  refine ⟨by norm_num [chatTemperature], fun oracle input h => ?_⟩
  simp [convertCall, convert_tabular_to_edi944, h]

/-- Witness for the amended C2 at a constant oracle. -/
theorem convert_deterministic_relative_to_model_witness :
    convertCall (fun _ _ => .ok (.nonDict "ISA~")) 0 "HDR|944" =
      convertCall (fun _ _ => .ok (.nonDict "ISA~")) 1 "HDR|944" :=
  convert_deterministic_relative_to_model.2
    (fun _ _ => .ok (.nonDict "ISA~")) "HDR|944" rfl

/-- C5 counterexample: on an input whose line item is missing both its quantity
and its product ID, convert_tabular_to_edi944 returns the model's output
instead of signalling a validation error. -/
theorem no_validation_error_counterexample :
    convert_tabular_to_edi944 completingChain "HDR|CAN|944|O\nDTL|45||NA||EA||" =
      .ok "ISA*00~ST*944*0001~SE*2*0001~" := rfl

/-- C5 (amended): convert_tabular_to_edi944 performs no input validation at
all: for every input, malformed or incomplete line items included, it forwards
the input to the model and succeeds exactly when the chain invocation succeeds;
the only error it signals is a re-raised chain exception. -/
theorem convert_performs_no_validation
    (chain : String → Except String ChainResult) (input : String) :
    isOkResult (convert_tabular_to_edi944 chain input) = isOkResult (chain input) ∧
    (∀ e, chain input = .error e →
      convert_tabular_to_edi944 chain input =
        .error ("Error during conversion: " ++ e)) := by
  constructor
  · cases h : chain input <;> simp [convert_tabular_to_edi944, h, isOkResult]
  · intro e h
    simp [convert_tabular_to_edi944, h]

/-- Witness for the amended C5 at a concrete failing chain and input. -/
theorem convert_performs_no_validation_witness :
    convert_tabular_to_edi944 (fun _ => .error "boom") "DTL|||" =
      .error ("Error during conversion: " ++ "boom") :=
  (convert_performs_no_validation (fun _ => .error "boom") "DTL|||").2 "boom" rfl

/-- C8: only the exact mode string "standard" selects the standard template;
every other mode string, "synapse" or invalid, selects the synapse template,
so an unrecognized mode is silently treated as synapse rather than rejected. -/
theorem mode_selection_defaults_to_synapse :
    selectTemplate "standard" = .standard ∧
    ∀ mode : String, mode ≠ "standard" → selectTemplate mode = .synapse := by
  refine ⟨rfl, fun mode h => ?_⟩
  simp [selectTemplate, h]

/-- Witness for C8 at the "synapse", "foo" and empty mode strings. -/
theorem mode_selection_defaults_to_synapse_witness :
    selectTemplate "synapse" = .synapse ∧ selectTemplate "foo" = .synapse ∧
      selectTemplate "" = .synapse :=
  ⟨mode_selection_defaults_to_synapse.2 "synapse" (by decide),
   mode_selection_defaults_to_synapse.2 "foo" (by decide),
   mode_selection_defaults_to_synapse.2 "" (by decide)⟩

/-- C9: get_api_key gives the session-state key precedence over the
environment: a non-empty session key is returned with the state unchanged;
otherwise a non-empty OPENAI_API_KEY value is first copied into session state
and then returned; when both are empty the empty string is returned. -/
theorem get_api_key_precedence (s : SessionState) (envKey k : String)
    (hk : s.api_key = some k) :
    (k ≠ "" → get_api_key s envKey = some (k, s)) ∧
    (k = "" → envKey ≠ "" →
      get_api_key s envKey = some (envKey, save_api_key s envKey)) ∧
    (k = "" → envKey = "" → get_api_key s envKey = some ("", s)) := by
  refine ⟨fun h1 => ?_, fun h1 h2 => ?_, fun h1 h2 => ?_⟩
  · simp [get_api_key, hk, h1]
  · simp [get_api_key, hk, h1, h2]
  · simp [get_api_key, hk, h1, h2]

/-- Session state holding a non-empty API key. -/
def sessWithKey : SessionState :=
  ⟨some "sk-session", some none, some [], some "standard"⟩

/-- Session state holding an empty API key. -/
def sessEmptyKey : SessionState :=
  ⟨some "", some none, some [], some "standard"⟩

/-- Witness for C9 covering its three cases at concrete states. -/
theorem get_api_key_precedence_witness :
    get_api_key sessWithKey "sk-env" = some ("sk-session", sessWithKey) ∧
    get_api_key sessEmptyKey "sk-env" =
      some ("sk-env", save_api_key sessEmptyKey "sk-env") ∧
    get_api_key sessEmptyKey "" = some ("", sessEmptyKey) :=
  ⟨(get_api_key_precedence sessWithKey "sk-env" "sk-session" rfl).1 (by decide),
   (get_api_key_precedence sessEmptyKey "sk-env" "" rfl).2.1 rfl (by decide),
   (get_api_key_precedence sessEmptyKey "" "" rfl).2.2 rfl rfl⟩

/-- C10: the stored conversion mode is only ever "standard" or "synapse":
init_session_state fills an absent key with "standard", set_conversion_mode
updates the state only for those two values and leaves it unchanged for any
other argument, get_conversion_mode falls back to "standard" when the key is
absent, and both state operations preserve the mode invariant. -/
theorem conversion_mode_invariant (s : SessionState) (mode : String) :
    (s.conversion_mode = none →
      (init_session_state s).conversion_mode = some "standard") ∧
    (mode = "standard" ∨ mode = "synapse" →
      (set_conversion_mode s mode).conversion_mode = some mode) ∧
    (mode ≠ "standard" → mode ≠ "synapse" → set_conversion_mode s mode = s) ∧
    (s.conversion_mode = none → get_conversion_mode s = "standard") ∧
    (ModeInvariant s → ModeInvariant (init_session_state s) ∧
      ∀ m, ModeInvariant (set_conversion_mode s m)) := by
  refine ⟨fun h => ?_, fun h => ?_, fun h1 h2 => ?_, fun h => ?_, fun h => ⟨?_, fun m => ?_⟩⟩
  · rw [init_session_state_conversion_mode, h]
    rfl
  · simp [set_conversion_mode, h]
  · simp [set_conversion_mode, h1, h2]
  · simp [get_conversion_mode, h]
  · rw [ModeInvariant, init_session_state_conversion_mode]
    rcases h with h | h | h <;> simp [h]
  · by_cases hm : m = "standard" ∨ m = "synapse"
    · rcases hm with hm | hm <;> simp [ModeInvariant, set_conversion_mode, hm]
    · simpa [ModeInvariant, set_conversion_mode, hm] using h

/-- Witness for C10 at concrete states and mode strings. -/
theorem conversion_mode_invariant_witness :
    (init_session_state ⟨none, none, none, none⟩).conversion_mode =
      some "standard" ∧
    (set_conversion_mode sessWithKey "synapse").conversion_mode =
      some "synapse" ∧
    set_conversion_mode sessWithKey "foo" = sessWithKey ∧
    get_conversion_mode ⟨some "", none, none, none⟩ = "standard" ∧
    ModeInvariant (init_session_state sessWithKey) :=
  ⟨(conversion_mode_invariant ⟨none, none, none, none⟩ "").1 rfl,
   (conversion_mode_invariant sessWithKey "synapse").2.1 (Or.inr rfl),
   (conversion_mode_invariant sessWithKey "foo").2.2.1 (by decide) (by decide),
   (conversion_mode_invariant ⟨some "", none, none, none⟩ "").2.2.2.1 rfl,
   ((conversion_mode_invariant sessWithKey "").2.2.2.2
     (Or.inr (Or.inl rfl))).1⟩


/-! ## EDI segment parsing for the reference examples embedded in the prompts -/

/-- Accumulator pass for splitOnChar: cur collects the current piece in
reverse, acc the finished pieces in reverse. -/
def splitOnCharAux (c : Char) : List Char → List Char → List (List Char) →
    List (List Char)
  | [], cur, acc => (cur.reverse :: acc).reverse
  | x :: xs, cur, acc =>
    if x = c then splitOnCharAux c xs [] (cur.reverse :: acc)
    else splitOnCharAux c xs (x :: cur) acc

/-- Split a character list at every occurrence of the separator c. -/
def splitOnChar (c : Char) (l : List Char) : List (List Char) :=
  splitOnCharAux c l [] []

/-- Parse a nonempty all-digit character list as a natural number. -/
def digitsToNat? (l : List Char) : Option Nat :=
  if l ≠ [] ∧ l.all Char.isDigit then
    some (l.foldl (fun n c => 10 * n + (c.toNat - 48)) 0)
  else none

/-- Segments of an EDI text: split on the segment terminator, drop the empty
remainder after the final terminator, and split each segment on the element
separator. -/
def ediSegments (edi : String) : List (List (List Char)) :=
  ((splitOnChar '~' edi.data).filter (fun seg => !seg.isEmpty)).map
    (splitOnChar '*')

/-- Tag (first element) of a parsed segment. -/
def segTag (f : List (List Char)) : List Char := f.headD []

/-- Quantities of the W07 item-detail segments of an EDI text, in order. -/
def w07Quantities (edi : String) : List Nat :=
  (ediSegments edi).filterMap fun f =>
    if segTag f = "W07".data then digitsToNat? (f.getD 1 []) else none

/-- Quantity carried by the first W14 totals segment of an EDI text. -/
def w14Quantity (edi : String) : Option Nat :=
  ((ediSegments edi).filterMap fun f =>
    if segTag f = "W14".data then digitsToNat? (f.getD 1 []) else none).head?

/-- Tags of the segments of an EDI text, in order. -/
def ediSegmentTags (edi : String) : List String :=
  (ediSegments edi).map fun f => String.mk (segTag f)

/-- Element i of the first segment carrying the given tag. -/
def ediElement (edi : String) (tag : String) (i : Nat) : Option String :=
  ((ediSegments edi).find? (fun f => segTag f == tag.data)).map
    fun f => String.mk (f.getD i [])

/-- Sample EDI 944 output embedded in standard_template (converter.py line 69),
the reference example the standard-mode prompt instructs the model to follow. -/
def standardTemplateExample : String :=
  "ISA*00          00          ZZ*DCG            ZZ*9083514477     220519*0800*U*00401*000001057*1*P*>~GS*RE*DCG*9083514477*20220519*0800*1057*X*004010~ST*944*0001~W17*F*20220516*EISU9397985-21104*21104*EISU9397985*9*1337~N1*WH*D7~N9*ZZ*EISU9397985~N9*IN*0100-128E EGLV11020001328~W07*3024*EA*196272171026*VN*HCZK203-STK~G69*3PC LIFE WITH MAMMALS SHORT SET~N9*CL*GREY~N9*SZ*PPK~N9*PO*CS22/0406~N9*LN*18.000~N9*WD*13.000~N9*HT*19.000~N9*WT*24.200~W07*6000*EA*196272482689*VN*HCZK403-STK~G69*3PC LIFE WITH MAMMALS SHORT SET~N9*CL*GREY~N9*SZ*PPK~N9*PO*CS22/0406~N9*LN*18.000~N9*WD*13.000~N9*HT*19.000~N9*WT*27.940~W14*31248~SE*70*0001~GE*1*1057~IEA*1*000001057~"

/-- Sample EDI 944 output embedded in synapse_template (converter.py line 105),
the reference example the synapse-mode prompt instructs the model to follow. -/
def synapseTemplateExample : String :=
  "ISA*00          00          ZZ*DCG            ZZ*9083514477     220519*0800*U*00401*000001057*1*P*>~GS*RE*DCG*9083514477*20220519*0800*1057*X*004010~ST*944*0001~W17*F*20220516*EISU9397985-21104*21104*EISU9397985*9*1337~N1*WH*D7~N9*ZZ*EISU9397985~N9*IN*0100-128E EGLV11020001328~W07*3024*EA*196272171026*VN*HCZK203-STK~G69*3PC LIFE WITH MAMMALS SHORT SET~N9*CL*GREY~N9*SZ*PPK~N9*PO*CS22/0406~N9*LN*18.000~N9*WD*13.000~N9*HT*19.000~N9*WT*24.200~W07*6000*EA*196272482689*VN*HCZK403-STK~G69*3PC LIFE WITH MAMMALS SHORT SET~N9*CL*GREY~N9*SZ*PPK~N9*PO*CS22/0406~N9*LN*18.000~N9*WD*13.000~N9*HT*19.000~N9*WT*27.940~W07*6000*EA*196272598878*VN*HCZK404-STK~G69*3PC TINY BUT MIGHTY SHORT SET~N9*CL*GREEN~N9*SZ*PPK~N9*PO*CS22/0406~N9*LN*20.000~N9*WD*14.500~N9*HT*19.500~N9*WT*27.500~W07*3024*EA*196272729241*VN*HCZK206-STK~G69*3PC LION SHORT SET~N9*CL*YELLO~N9*SZ*PPK~N9*PO*CS22/0407~N9*LN*18.000~N9*WD*13.000~N9*HT*19.000~N9*WT*45.760~W07*6000*EA*196272730063*VN*HCZK406-STK~G69*3PC LION SHORT SET~N9*CL*YELLO~N9*SZ*PPK~N9*PO*CS22/0407~N9*LN*20.000~N9*WD*14.000~N9*HT*19.000~N9*WT*27.060~W07*6000*EA*196272215515*VN*HCZK606-STK~G69*3PC LION SHORT SET~N9*CL*YELLO~N9*SZ*PPK~N9*PO*CS22/0407~N9*LN*22.000~N9*WD*14.000~N9*HT*19.000~N9*WT*32.520~W07*1200*EA*196272246359*VN*HCZW823-STK~G69*3PC BUG EXPERT SHORT SET~N9*CL*WHITE~N9*SZ*PPK~N9*PO*CS22/0408~N9*LN*22.000~N9*WD*16.000~N9*HT*24.000~N9*WT*36.520~W14*31248~SE*70*0001~GE*1*1057~IEA*1*000001057~"

/-- C3 (code evaluation at the failing input): the standard-mode reference
example embedded in the prompt lists exactly two W07 line items, with
quantities 3024 and 6000 summing to 9024, yet its trailing W14 totals segment
carries 31248, so the reference output the code supplies violates the totals
invariant. -/
theorem standard_example_total_mismatch :
    w07Quantities standardTemplateExample = [3024, 6000] ∧
    (w07Quantities standardTemplateExample).sum = 9024 ∧
    w14Quantity standardTemplateExample = some 31248 :=
  ⟨rfl, rfl, rfl⟩

/-- The synapse-mode reference example is internally consistent: its seven W07
quantities sum to exactly the 31248 its W14 totals segment carries.  The totals
invariant is thus the intended reading, and the standard-mode example kept a
stale total when it was truncated to two items. -/
theorem synapse_example_total_consistent :
    w07Quantities synapseTemplateExample =
      [3024, 6000, 6000, 3024, 6000, 6000, 1200] ∧
    (w07Quantities synapseTemplateExample).sum = 31248 ∧
    w14Quantity synapseTemplateExample = some 31248 :=
  ⟨rfl, rfl, rfl⟩

/-- Control numbers pair up in both embedded reference examples: the ST/SE,
GS/GE and ISA/IEA segments carry matching numbers.  In these examples the ISA
control number sits at element 7 because the sample ISA segment omits some of
its element separators. -/
theorem example_control_numbers_pair :
    ediElement standardTemplateExample "ST" 2 =
      ediElement standardTemplateExample "SE" 2 ∧
    ediElement standardTemplateExample "GS" 6 =
      ediElement standardTemplateExample "GE" 2 ∧
    ediElement standardTemplateExample "ISA" 7 =
      ediElement standardTemplateExample "IEA" 2 ∧
    ediElement synapseTemplateExample "ST" 2 =
      ediElement synapseTemplateExample "SE" 2 ∧
    ediElement synapseTemplateExample "GS" 6 =
      ediElement synapseTemplateExample "GE" 2 ∧
    ediElement synapseTemplateExample "ISA" 7 =
      ediElement synapseTemplateExample "IEA" 2 :=
  ⟨rfl, rfl, rfl, rfl, rfl, rfl⟩

/-- The standard-mode reference example presents its segments in the fixed
order of the specification: ISA, GS, ST, W17, one N1, receipt-level N9
segments, then per line item one W07, one G69 and attribute N9 segments,
followed by W14, SE, GE, IEA. -/
theorem standard_example_segment_order :
    ediSegmentTags standardTemplateExample =
      ["ISA", "GS", "ST", "W17", "N1", "N9", "N9"] ++
        ("W07" :: "G69" :: List.replicate 7 "N9") ++
        ("W07" :: "G69" :: List.replicate 7 "N9") ++
        ["W14", "SE", "GE", "IEA"] :=
  rfl

/-! ## EDI944Encoder modelled from the specification -/

/-- Modelled from the spec: the source contains no EDI 944 encoder (the format
conversion is delegated to the external model), so the LineItem entity of spec
section 3 is modelled here: quantity, unit of measure, product ID with its
qualifier, product code, free-text description, and an ordered list of
attribute references keyed by a qualifier. -/
structure LineItem where
  quantity : Nat
  unit : String
  productId : String
  productIdQualifier : String
  productCode : String
  description : String
  attrs : List (String × String)
deriving DecidableEq

/-- Modelled from the spec: the normalized receipt record of spec sections 3
and 4.1 that the missing EDI944Encoder consumes: envelope and group fields,
the three control numbers, receipt-header fields, one entity identifier per
entity role, receipt-level references, and the ordered line items. -/
structure ReceiptRecord where
  senderId : String
  receiverId : String
  date : String
  time : String
  interchangeControl : String
  groupControl : String
  transactionControl : String
  reportType : String
  receiptDate : String
  receiptId : String
  shipmentId : String
  containerId : String
  unitCount : Nat
  w17Quantity : Nat
  entities : List (String × String)
  receiptRefs : List (String × String)
  items : List LineItem
deriving DecidableEq

/-- Modelled from the spec: ISA interchange header with the interchange
control number as its thirteenth element. -/
def isaSegment (r : ReceiptRecord) : List String :=
  ["ISA", "00", "", "00", "", "ZZ", r.senderId, "ZZ", r.receiverId,
   r.date, r.time, "U", "00401", r.interchangeControl, "1", "P", ">"]

/-- Modelled from the spec: GS functional-group header with the group control
number as its sixth element. -/
def gsSegment (r : ReceiptRecord) : List String :=
  ["GS", "RE", r.senderId, r.receiverId, r.date, r.time, r.groupControl,
   "X", "004010"]

/-- Modelled from the spec: ST transaction-set header with the transaction
control number as its second element. -/
def stSegment (r : ReceiptRecord) : List String :=
  ["ST", "944", r.transactionControl]

/-- Modelled from the spec: W17 warehouse-receipt header. -/
def w17Segment (r : ReceiptRecord) : List String :=
  ["W17", r.reportType, r.receiptDate, r.receiptId, r.shipmentId,
   r.containerId, toString r.unitCount, toString r.w17Quantity]

/-- Modelled from the spec: N1 entity-identification segment. -/
def n1Segment (e : String × String) : List String := ["N1", e.1, e.2]

/-- Modelled from the spec: N9 reference segment. -/
def n9Segment (q : String × String) : List String := ["N9", q.1, q.2]

/-- Modelled from the spec: W07 item-detail segment. -/
def w07Segment (it : LineItem) : List String :=
  ["W07", toString it.quantity, it.unit, it.productId, it.productIdQualifier,
   it.productCode]

/-- Modelled from the spec: G69 item-description segment. -/
def g69Segment (it : LineItem) : List String := ["G69", it.description]

/-- Modelled from the spec: segments of one line item, in order one W07, one
G69, and one N9 per populated attribute qualifier. -/
def itemSegments (it : LineItem) : List (List String) :=
  w07Segment it :: g69Segment it :: it.attrs.map n9Segment

/-- Modelled from the spec: aggregate quantity across all line items. -/
def totalQuantity (r : ReceiptRecord) : Nat :=
  (r.items.map LineItem.quantity).sum

/-- Modelled from the spec: W14 totals segment carrying the sum of all item
quantities. -/
def w14Segment (r : ReceiptRecord) : List String :=
  ["W14", toString (totalQuantity r)]

/-- Modelled from the spec: the transaction-set body, ST through W14. -/
def bodySegments (r : ReceiptRecord) : List (List String) :=
  stSegment r :: w17Segment r ::
    (r.entities.map n1Segment ++ r.receiptRefs.map n9Segment ++
      r.items.flatMap itemSegments ++ [w14Segment r])

/-- Modelled from the spec: SE transaction-set trailer carrying the segment
count and the transaction control number. -/
def seSegment (r : ReceiptRecord) : List String :=
  ["SE", toString ((bodySegments r).length + 1), r.transactionControl]

/-- Modelled from the spec: GE group trailer carrying the group count and the
group control number. -/
def geSegment (r : ReceiptRecord) : List String := ["GE", "1", r.groupControl]

/-- Modelled from the spec: IEA interchange trailer carrying the interchange
count and the interchange control number. -/
def ieaSegment (r : ReceiptRecord) : List String :=
  ["IEA", "1", r.interchangeControl]

/-- Modelled from the spec: the segments of an encoded record, in the fixed
order of spec section 4.1. -/
def encodeSegments (r : ReceiptRecord) : List (List String) :=
  [isaSegment r, gsSegment r] ++ bodySegments r ++
    [seSegment r, geSegment r, ieaSegment r]

/-- Render one segment: elements separated by the asterisk and a terminating
tilde. -/
def renderSegment (f : List String) : String :=
  String.intercalate "*" f ++ "~"

/-- Modelled from the spec: EDI944Encoder.encode, a pure function from the
normalized record to the single output string. -/
def encode (r : ReceiptRecord) : String :=
  String.join ((encodeSegments r).map renderSegment)

/-- Tag of an encoder segment. -/
def tagOf (f : List String) : String := f.headD ""

/-- Tags of a segment list, in order. -/
def segmentTags (segs : List (List String)) : List String := segs.map tagOf

/-- First segment of the list carrying the given tag. -/
def findSegment (tag : String) (segs : List (List String)) : List String :=
  (segs.find? (fun f => tagOf f == tag)).getD []

/-- Element i of the first segment carrying the given tag. -/
def controlNumberAt (tag : String) (i : Nat) (segs : List (List String)) :
    String :=
  (findSegment tag segs).getD i ""

lemma find?_append_of_forall_neg {α : Type} (p : α → Bool) (l₁ l₂ : List α)
    (h : ∀ a ∈ l₁, p a = false) :
    (l₁ ++ l₂).find? p = l₂.find? p := by
  induction l₁ with
  | nil => rfl
  | cons a l ih =>
    rw [List.cons_append,
      List.find?_cons_of_neg _ (by simp [h a (List.mem_cons_self a l)])]
    exact ih fun b hb => h b (List.mem_cons_of_mem a hb)

lemma tagOf_n1Segment (e : String × String) : tagOf (n1Segment e) = "N1" := rfl

lemma tagOf_n9Segment (q : String × String) : tagOf (n9Segment q) = "N9" := rfl

lemma find?_tagOf_cons (tag : String) (f : List String)
    (segs : List (List String)) :
    (f :: segs).find? (fun g => tagOf g == tag) =
      if tagOf f = tag then some f
      else segs.find? (fun g => tagOf g == tag) := by
  split_ifs with h
  · exact List.find?_cons_of_pos _ (by simp [h])
  · exact List.find?_cons_of_neg _ (by simp [h])

lemma find?_tagOf_map_n1 (tag : String) (h : tag ≠ "N1")
    (l : List (String × String)) (rest : List (List String)) :
    (l.map n1Segment ++ rest).find? (fun g => tagOf g == tag) =
      rest.find? (fun g => tagOf g == tag) := by
  refine find?_append_of_forall_neg _ _ _ fun a ha => ?_
  obtain ⟨e, -, rfl⟩ := List.mem_map.1 ha
  simp [tagOf_n1Segment, beq_eq_false_iff_ne, Ne.symm h]

lemma find?_tagOf_map_n9 (tag : String) (h : tag ≠ "N9")
    (l : List (String × String)) (rest : List (List String)) :
    (l.map n9Segment ++ rest).find? (fun g => tagOf g == tag) =
      rest.find? (fun g => tagOf g == tag) := by
  refine find?_append_of_forall_neg _ _ _ fun a ha => ?_
  obtain ⟨q, -, rfl⟩ := List.mem_map.1 ha
  simp [tagOf_n9Segment, beq_eq_false_iff_ne, Ne.symm h]

lemma find?_tagOf_flatMap_items (tag : String) (h07 : tag ≠ "W07")
    (h69 : tag ≠ "G69") (h9 : tag ≠ "N9") (l : List LineItem)
    (rest : List (List String)) :
    (l.flatMap itemSegments ++ rest).find? (fun g => tagOf g == tag) =
      rest.find? (fun g => tagOf g == tag) := by
  refine find?_append_of_forall_neg _ _ _ fun a ha => ?_
  obtain ⟨it, -, hit⟩ := List.mem_flatMap.1 ha
  simp only [itemSegments, List.mem_cons, List.mem_map] at hit
  rcases hit with rfl | rfl | ⟨q, -, rfl⟩
  · simp [tagOf, w07Segment, beq_eq_false_iff_ne, Ne.symm h07]
  · simp [tagOf, g69Segment, beq_eq_false_iff_ne, Ne.symm h69]
  · simp [tagOf_n9Segment, beq_eq_false_iff_ne, Ne.symm h9]

lemma findSegment_encode_ISA (r : ReceiptRecord) :
    findSegment "ISA" (encodeSegments r) = isaSegment r := by
  simp only [findSegment, encodeSegments, List.cons_append, List.nil_append]
  rw [find?_tagOf_cons]
  simp [tagOf, isaSegment]

lemma findSegment_encode_GS (r : ReceiptRecord) :
    findSegment "GS" (encodeSegments r) = gsSegment r := by
  simp only [findSegment, encodeSegments, List.cons_append, List.nil_append]
  rw [find?_tagOf_cons, find?_tagOf_cons]
  simp [tagOf, isaSegment, gsSegment]

lemma findSegment_encode_ST (r : ReceiptRecord) :
    findSegment "ST" (encodeSegments r) = stSegment r := by
  simp only [findSegment, encodeSegments, bodySegments, List.cons_append,
    List.nil_append]
  rw [find?_tagOf_cons, find?_tagOf_cons, find?_tagOf_cons]
  simp [tagOf, isaSegment, gsSegment, stSegment]

lemma findSegment_encode_SE (r : ReceiptRecord) :
    findSegment "SE" (encodeSegments r) = seSegment r := by
  simp only [findSegment, encodeSegments, bodySegments, List.cons_append,
    List.nil_append, List.append_assoc]
  rw [find?_tagOf_cons, find?_tagOf_cons, find?_tagOf_cons, find?_tagOf_cons,
    find?_tagOf_map_n1 "SE" (by decide), find?_tagOf_map_n9 "SE" (by decide),
    find?_tagOf_flatMap_items "SE" (by decide) (by decide) (by decide),
    find?_tagOf_cons, find?_tagOf_cons]
  simp [tagOf, isaSegment, gsSegment, stSegment, w17Segment, w14Segment,
    seSegment]

lemma findSegment_encode_GE (r : ReceiptRecord) :
    findSegment "GE" (encodeSegments r) = geSegment r := by
  simp only [findSegment, encodeSegments, bodySegments, List.cons_append,
    List.nil_append, List.append_assoc]
  rw [find?_tagOf_cons, find?_tagOf_cons, find?_tagOf_cons, find?_tagOf_cons,
    find?_tagOf_map_n1 "GE" (by decide), find?_tagOf_map_n9 "GE" (by decide),
    find?_tagOf_flatMap_items "GE" (by decide) (by decide) (by decide),
    find?_tagOf_cons, find?_tagOf_cons, find?_tagOf_cons]
  simp [tagOf, isaSegment, gsSegment, stSegment, w17Segment, w14Segment,
    seSegment, geSegment]

lemma findSegment_encode_IEA (r : ReceiptRecord) :
    findSegment "IEA" (encodeSegments r) = ieaSegment r := by
  simp only [findSegment, encodeSegments, bodySegments, List.cons_append,
    List.nil_append, List.append_assoc]
  rw [find?_tagOf_cons, find?_tagOf_cons, find?_tagOf_cons, find?_tagOf_cons,
    find?_tagOf_map_n1 "IEA" (by decide), find?_tagOf_map_n9 "IEA" (by decide),
    find?_tagOf_flatMap_items "IEA" (by decide) (by decide) (by decide),
    find?_tagOf_cons, find?_tagOf_cons, find?_tagOf_cons, find?_tagOf_cons]
  simp [tagOf, isaSegment, gsSegment, stSegment, w17Segment, w14Segment,
    seSegment, geSegment, ieaSegment]

lemma tagOf_isaSegment (r : ReceiptRecord) : tagOf (isaSegment r) = "ISA" := rfl

lemma tagOf_gsSegment (r : ReceiptRecord) : tagOf (gsSegment r) = "GS" := rfl

lemma tagOf_stSegment (r : ReceiptRecord) : tagOf (stSegment r) = "ST" := rfl

lemma tagOf_w17Segment (r : ReceiptRecord) : tagOf (w17Segment r) = "W17" := rfl

lemma tagOf_w07Segment (it : LineItem) : tagOf (w07Segment it) = "W07" := rfl

lemma tagOf_g69Segment (it : LineItem) : tagOf (g69Segment it) = "G69" := rfl

lemma tagOf_w14Segment (r : ReceiptRecord) : tagOf (w14Segment r) = "W14" := rfl

lemma tagOf_seSegment (r : ReceiptRecord) : tagOf (seSegment r) = "SE" := rfl

lemma tagOf_geSegment (r : ReceiptRecord) : tagOf (geSegment r) = "GE" := rfl

lemma tagOf_ieaSegment (r : ReceiptRecord) : tagOf (ieaSegment r) = "IEA" := rfl

lemma segmentTags_encode (r : ReceiptRecord) :
    segmentTags (encodeSegments r) =
      ["ISA", "GS", "ST", "W17"] ++ r.entities.map (fun _ => "N1") ++
        r.receiptRefs.map (fun _ => "N9") ++
        (r.items.flatMap fun it =>
          "W07" :: "G69" :: it.attrs.map fun _ => "N9") ++
        ["W14", "SE", "GE", "IEA"] := by
  simp [segmentTags, encodeSegments, bodySegments, itemSegments,
    List.map_append, List.map_flatMap, Function.comp_def, tagOf_isaSegment,
    tagOf_gsSegment, tagOf_stSegment, tagOf_w17Segment, tagOf_n1Segment,
    tagOf_n9Segment, tagOf_w07Segment, tagOf_g69Segment, tagOf_w14Segment,
    tagOf_seSegment, tagOf_geSegment, tagOf_ieaSegment]

/-! ## Claim theorems over the modelled encoder -/

/-- C4 (spec-modelled): in every encoded output the header and trailer control
numbers pair up: the ST and SE segments carry the same transaction control
number, the GS and GE segments the same group control number, and the ISA and
IEA segments the same interchange control number. -/
theorem encode_control_numbers_pair (r : ReceiptRecord) :
    controlNumberAt "ST" 2 (encodeSegments r) =
      controlNumberAt "SE" 2 (encodeSegments r) ∧
    controlNumberAt "GS" 6 (encodeSegments r) =
      controlNumberAt "GE" 2 (encodeSegments r) ∧
    controlNumberAt "ISA" 13 (encodeSegments r) =
      controlNumberAt "IEA" 2 (encodeSegments r) := by
  simp only [controlNumberAt, findSegment_encode_ST, findSegment_encode_SE,
    findSegment_encode_GS, findSegment_encode_GE, findSegment_encode_ISA,
    findSegment_encode_IEA]
  exact ⟨rfl, rfl, rfl⟩

/-- C6 (spec-modelled): a record with zero line items still yields the
ISA, GS, ST header segments and the SE, GE, IEA trailer segments, and its W14
totals segment appears in the output carrying a zero total. -/
theorem encode_zero_items (r : ReceiptRecord) (h : r.items = []) :
    segmentTags (encodeSegments r) =
      ["ISA", "GS", "ST", "W17"] ++ r.entities.map (fun _ => "N1") ++
        r.receiptRefs.map (fun _ => "N9") ++ ["W14", "SE", "GE", "IEA"] ∧
    w14Segment r ∈ encodeSegments r ∧ w14Segment r = ["W14", "0"] := by
  refine ⟨?_, ?_, ?_⟩
  · rw [segmentTags_encode, h]
    simp
  · simp [encodeSegments, bodySegments]
  · simp only [w14Segment, totalQuantity, h, List.map_nil, List.sum_nil]
    rfl

/-- Record with no line items used as the C6 witness input. -/
def emptyItemsRecord : ReceiptRecord :=
  ⟨"DCG", "9083514477", "20220519", "0800", "000001057", "1057", "0001",
   "F", "20220516", "EISU9397985-21104", "21104", "EISU9397985", 0, 0,
   [("WH", "D7")], [("ZZ", "EISU9397985")], []⟩

/-- Witness for C6 at a concrete record with zero line items. -/
theorem encode_zero_items_witness :
    segmentTags (encodeSegments emptyItemsRecord) =
      ["ISA", "GS", "ST", "W17"] ++
        (emptyItemsRecord.entities.map (fun _ => "N1")) ++
        (emptyItemsRecord.receiptRefs.map (fun _ => "N9")) ++
        ["W14", "SE", "GE", "IEA"] ∧
    w14Segment emptyItemsRecord ∈ encodeSegments emptyItemsRecord ∧
    w14Segment emptyItemsRecord = ["W14", "0"] :=
  encode_zero_items emptyItemsRecord rfl

/-- C7 (spec-modelled): for every valid record, the encoded output is the
single string rendering of a segment list whose tags appear in the fixed
order ISA, GS, ST, W17, one N1 per distinct entity role, the receipt-level N9
segments, then per line item one W07, one G69 and one N9 per populated
attribute qualifier, followed by a single W14, then SE, GE, IEA. -/
theorem encode_segment_order (r : ReceiptRecord)
    (_hroles : (r.entities.map Prod.fst).Nodup) :
    encode r = String.join ((encodeSegments r).map renderSegment) ∧
    segmentTags (encodeSegments r) =
      ["ISA", "GS", "ST", "W17"] ++ r.entities.map (fun _ => "N1") ++
        r.receiptRefs.map (fun _ => "N9") ++
        (r.items.flatMap fun it =>
          "W07" :: "G69" :: it.attrs.map fun _ => "N9") ++
        ["W14", "SE", "GE", "IEA"] :=
  ⟨rfl, segmentTags_encode r⟩

/-- Record with two line items used as the C7 witness input, taken from the
two-item standard-mode reference example. -/
def twoItemRecord : ReceiptRecord :=
  ⟨"DCG", "9083514477", "20220519", "0800", "000001057", "1057", "0001",
   "F", "20220516", "EISU9397985-21104", "21104", "EISU9397985", 9, 1337,
   [("WH", "D7")], [("ZZ", "EISU9397985"), ("IN", "0100-128E EGLV11020001328")],
   [⟨3024, "EA", "196272171026", "VN", "HCZK203-STK",
      "3PC LIFE WITH MAMMALS SHORT SET",
      [("CL", "GREY"), ("SZ", "PPK"), ("PO", "CS22/0406"), ("LN", "18.000"),
       ("WD", "13.000"), ("HT", "19.000"), ("WT", "24.200")]⟩,
    ⟨6000, "EA", "196272482689", "VN", "HCZK403-STK",
      "3PC LIFE WITH MAMMALS SHORT SET",
      [("CL", "GREY"), ("SZ", "PPK"), ("PO", "CS22/0406"), ("LN", "18.000"),
       ("WD", "13.000"), ("HT", "19.000"), ("WT", "27.940")]⟩]⟩

/-- Witness for C7 at a concrete record with distinct entity roles. -/
theorem encode_segment_order_witness :
    encode twoItemRecord =
      String.join ((encodeSegments twoItemRecord).map renderSegment) ∧
    segmentTags (encodeSegments twoItemRecord) =
      ["ISA", "GS", "ST", "W17"] ++
        (twoItemRecord.entities.map (fun _ => "N1")) ++
        (twoItemRecord.receiptRefs.map (fun _ => "N9")) ++
        (twoItemRecord.items.flatMap fun it =>
          "W07" :: "G69" :: it.attrs.map fun _ => "N9") ++
        ["W14", "SE", "GE", "IEA"] :=
  encode_segment_order twoItemRecord (by decide)

/-- The modelled encoder satisfies the totals invariant the standard-mode
reference example violates: on the record carrying the example's two line
items the W14 segment shows 9024, the sum of 3024 and 6000, not 31248. -/
theorem encode_two_item_total :
    w14Segment twoItemRecord = ["W14", "9024"] ∧
    totalQuantity twoItemRecord = 3024 + 6000 := by
  exact ⟨rfl, rfl⟩

end EdiMapper
